import Mathlib

/-!
Shallow embedding of the Nortek DVL protocol driver
(`src/Sensors/NortekDVL/Driver.hpp`).

Modelling conventions:
* The C++ `double`/`float` inputs of the validators, and the member
  fields they store (`m_salinity`, `m_sampling_rate`), become `FVal`: a
  rational number or NaN, with IEEE ordered-comparison semantics (every
  comparison involving NaN is false), because the validator guards
  genuinely depend on NaN behaviour.  Other numeric values (timeouts,
  decibel levels, clock fields) are never NaN in the source and become
  `ℚ`/`ℕ`.  Every numeric literal the driver compares or formats (0.0,
  1.0, 8.0, 50.0, 35.0, 5.0, -20.0, -10.0) is exactly representable, so
  the order comparisons and the `%f` renderings used below agree with the
  source.
* The TCP socket, the poll/timer pair and the parent task's logger are the
  environment.  A single `readUntil` call consumes one entry of
  `World.env`: a list of poll outcomes, each either a timeout or a chunk of
  bytes made available by the socket.
* `World.trace` is ghost observation state: it records, in order, every
  write to the transport (together with the session's command-mode flag at
  the instant of the write), every acknowledgment scan (with the timeout
  value passed to `readUntil`), every blocking delay, and a marker for each
  mode-entry transition attempt.  The driver's control flow never inspects
  the trace.
* The member state of the C++ `Driver` (`m_salinity`, `m_sampling_rate`,
  `m_cmd_mode`) is threaded explicitly through `World`.
-/

namespace NortekDVL

/-- One poll outcome inside a single `readUntil` call: either the poll/timer
reports no data before the deadline, or the socket has `chunk` available. -/
inductive REvent where
  | timeout : REvent
  | data (chunk : List Char) : REvent
deriving DecidableEq

/-- Ghost observation events recorded while the driver runs. -/
inductive Event where
  /-- Event: `bytes` were written to the socket; `cmdMode` is the value of
  `m_cmd_mode` at the instant of the write. -/
  | writeE (bytes : String) (cmdMode : Bool) : Event
  /-- a `readUntil` scan for `sequence` with the given `timeout` finished
  with result `ok`. -/
  | readE (sequence : String) (timeout : ℚ) (ok : Bool) : Event
  /-- Event: `Delay::wait t` was executed. -/
  | delayE (t : ℚ) : Event
  /-- Event: `enterCommandMode` started an actual mode-entry transition attempt
  (it was not already in command mode). -/
  | modeEntryE : Event
deriving DecidableEq

/-- The calendar fields of `Time::BrokenDown` used by `setTime`. -/
structure ClockFields where
  year : ℕ
  month : ℕ
  day : ℕ
  hour : ℕ
  minutes : ℕ
  seconds : ℕ
deriving DecidableEq

/-- A C++ floating-point value as it reaches the driver's validators: a
representable number or NaN. -/
inductive FVal where
  | nan : FVal
  | num (q : ℚ) : FVal
deriving DecidableEq

/-- IEEE ordered less-than (`<` on C++ `double`/`float`): any comparison
involving NaN is false. -/
def FVal.flt : FVal → FVal → Bool
  | FVal.num a, FVal.num b => decide (a < b)
  | _, _ => false

/-- IEEE ordered greater-than (`>` on C++ `double`/`float`): any
comparison involving NaN is false. -/
def FVal.fgt (a b : FVal) : Bool := FVal.flt b a

/-- IEEE ordered less-or-equal (`<=` on C++ `double`/`float`): any
comparison involving NaN is false. -/
def FVal.fle : FVal → FVal → Bool
  | FVal.num a, FVal.num b => decide (a ≤ b)
  | _, _ => false

/-- Driver member state plus the environment oracle and the ghost trace. -/
structure World where
  /-- Field `m_salinity` (C++ `double`). -/
  salinity : FVal
  /-- Field `m_sampling_rate` (C++ `float`). -/
  sampling_rate : FVal
  /-- Field `m_cmd_mode`: `true` iff the session is in command mode; `false`
  covers the measurement/unknown states. -/
  cmd_mode : Bool
  /-- wall clock read by `setTime`. -/
  clk : ClockFields
  /-- environment oracle: the poll outcomes consumed by each successive
  `readUntil` call. -/
  env : List (List REvent)
  /-- ghost observation trace. -/
  trace : List Event
deriving DecidableEq

/-- Break command literal (`c_cmd_break = "K1W%!Q"`). -/
def c_cmd_break : String := "K1W%!Q"

/-- Credentials literal (`c_cmd_nortek = "nortek"`). -/
def c_cmd_nortek : String := "nortek"

/-- Available power levels. -/
inductive PowerLevel where
  | PL_MIN : PowerLevel
  | PL_MED : PowerLevel
  | PL_MAX : PowerLevel
deriving DecidableEq

/-- The loop body of `Driver::readUntil`: a 256-byte zero-initialised
buffer `char bfr[256]` with write cursor `offset`.  Each iteration polls
(`.timeout` models `Poll::poll` returning false; an exhausted event list
models the timer overflowing), then `m_sock.read(bfr + offset,
sizeof(bfr) - offset)` appends at most `256 - offset` of the available
bytes, then the dead guard `offset > sizeof(bfr)` is checked, then
`String::endsWith(bfr, sequence)` is tested.  The buffer is modelled as the
list of accumulated bytes (the source views it through a NUL-terminated
C string; the protocol strings scanned for contain no NUL). -/
def readLoop (seq : List Char) (events : List REvent) (bfr : List Char) :
    Bool × List Char :=
  match events with
  | [] => (false, bfr)
  | REvent.timeout :: _ => (false, bfr)
  | REvent.data chunk :: rest =>
    let bfr' := bfr ++ chunk.take (256 - bfr.length)
    if 256 < bfr'.length then (false, bfr')
    else if seq.isSuffixOf bfr' then (true, bfr')
    else readLoop seq rest bfr'

/-- Run one `readUntil` scan for `sequence` on a fresh buffer (the source
declares `char bfr[256] = {0}; size_t offset = 0;` anew in every call, so
no state carries over between calls). -/
def scanRun (sequence : String) (events : List REvent) : Bool × List Char :=
  readLoop sequence.toList events []

/-- Model of `Driver::write`: sends `cmd + "\r\n"` on the socket and logs it.  The
ghost event also records the session's command-mode flag at the instant of
the write. -/
def write (cmd : String) (w : World) : World :=
  { w with trace := w.trace ++ [Event.writeE (cmd ++ "\r\n") w.cmd_mode] }

/-- Model of `Delay::wait t`. -/
def delay (t : ℚ) (w : World) : World :=
  { w with trace := w.trace ++ [Event.delayE t] }

/-- Model of `Driver::readUntil(sequence, timeout, print)`: consumes the next
environment entry and runs the scan loop on a fresh buffer. -/
def readUntil (sequence : String) (timeout : ℚ) (print : Bool) (w : World) :
    Bool × World :=
  let r := (scanRun sequence (w.env.headD [])).1
  (r, { w with env := w.env.tail,
               trace := w.trace ++ [Event.readE sequence timeout r] })

/-- The body of `Driver::sendCommand` after the mode branch:
`write(cmd); std::string reply("OK\r\n"); return readUntil(reply, 1.0,
print);`.  This is also exactly what `sendCommand(cmd, true, print)`
(bypass flag set) performs. -/
def sendCmdRaw (cmd : String) (print : Bool) (w : World) : Bool × World :=
  readUntil "OK\r\n" 1 print (write cmd w)

/-- Model of `Driver::sendBreak`: one attempt `sendCommand(c_cmd_break, true, 2.0)`
(the literal `2.0` converts to the C++ `bool print` parameter, hence
`print = true`; the bypass flag is set so the attempt is `sendCmdRaw`);
iff that attempt fails, exactly one further identical attempt is made. -/
def sendBreak (w : World) : Bool × World :=
  let a := sendCmdRaw c_cmd_break true w
  if !a.1 then
    let b := sendCmdRaw c_cmd_break true a.2
    if b.1 then (true, b.2) else (false, b.2)
  else (true, a.2)

/-- Ghost marker: `enterCommandMode` starts an actual transition attempt. -/
def markModeEntry (w : World) : World :=
  { w with trace := w.trace ++ [Event.modeEntryE] }

/-- Set `m_cmd_mode`. -/
def setCmdMode (v : Bool) (w : World) : World :=
  { w with cmd_mode := v }

/-- Model of `Driver::enterCommandMode`: no-op when already in command mode;
otherwise sends the break, waits one second, then issues
`sendCommand("MC", 2.0, true)` — the literal `2.0` converts to the C++
`bool ignore` parameter, so the bypass flag is set and the call is
`sendCmdRaw "MC" true`; on its success `m_cmd_mode` becomes true. -/
def enterCommandMode (w : World) : Bool × World :=
  if w.cmd_mode then (true, w)
  else
    let a := sendBreak (markModeEntry w)
    if !a.1 then (false, a.2)
    else
      let w2 := delay 1 a.2
      let b := sendCmdRaw "MC" true w2
      if !b.1 then (false, b.2)
      else (true, setCmdMode true b.2)

/-- Model of `Driver::sendCommand(cmd, ignore = false, print = false)`: unless the
bypass flag `ignore` is set, first forces the mode-entry transition and
fails without sending if it fails; then writes the command and waits for
the `"OK\r\n"` acknowledgment with the fixed 1.0 second timeout. -/
def sendCommand (cmd : String) (ignore : Bool) (print : Bool) (w : World) :
    Bool × World :=
  let pre := if ignore then (true, w) else enterCommandMode w
  if !pre.1 then (false, pre.2)
  else sendCmdRaw cmd print pre.2

/-- Model of `Driver::start`: `sendCommand("START")` (default path); on success
`m_cmd_mode` becomes false (measurement mode). -/
def start (w : World) : Bool × World :=
  let a := sendCommand "START" false false w
  if a.1 then (true, setCmdMode false a.2) else (false, a.2)

/-- Model of `Driver::replyLogin(reply)`: waits for the prompt; on success writes
the credentials and returns true, otherwise returns false without
writing. -/
def replyLogin (reply : String) (w : World) : Bool × World :=
  let a := readUntil reply 1 true w
  if a.1 then (true, write c_cmd_nortek a.2) else (false, a.2)

/-- Model of `Driver::login`: issues `replyLogin("Username: ")` and
`replyLogin("Password: ")` — their boolean results are discarded, exactly
as in the source — then waits for the `"Command Interface\r\r\n"` banner
with a 2.0 second timeout; on banner success waits one second and returns
true, otherwise returns false. -/
def login (w : World) : Bool × World :=
  let a := replyLogin "Username: " w
  let b := replyLogin "Password: " a.2
  let c := readUntil "Command Interface\r\r\n" 2 true b.2
  if c.1 then (true, delay 1 c.2) else (false, c.2)

/-- Left-pad a digit string with zeros to width 6. -/
def pad6 (s : String) : String :=
  String.mk (List.replicate (6 - s.length) '0') ++ s

/-- Model of `String::str("%f", v)`: printf `%f` renders the sign, the
integer part of the magnitude, and six digits after the decimal point.
Computed on the reduced numerator/denominator of `q`; the fractional
digits are obtained by truncation, which agrees with printf's rounding
whenever `q` scaled by 10^6 is an integer — as it is for every value the
driver formats. -/
def str_f (q : ℚ) : String :=
  let na : ℕ := q.num.natAbs
  let d : ℕ := q.den
  let ip : ℕ := na / d
  let fr : ℕ := na % d * 1000000 / d
  (if q.num < 0 then "-" else "") ++ toString ip ++ "." ++ pad6 (toString fr)

/-- Model of `Driver::setTime`: formats the broken-down wall clock into one
`SETCLOCK` command (`%d` fields) and executes it on the default path. -/
def setTime (w : World) : Bool × World :=
  let cmd :=
    "SETCLOCK,YEAR=" ++ toString w.clk.year ++
    ",MONTH=" ++ toString w.clk.month ++
    ",DAY=" ++ toString w.clk.day ++
    ",HOUR=" ++ toString w.clk.hour ++
    ",MINUTE=" ++ toString w.clk.minutes ++
    ",SECOND=" ++ toString w.clk.seconds
  let a := sendCommand cmd false false w
  if !a.1 then (false, a.2) else (true, a.2)

/-- Rendering of a driver float value by printf `%f`: numeric values via
`str_f`; NaN prints as `nan` (the sign bit of a NaN is not tracked). -/
def fstr_f : FVal → String
  | FVal.nan => "nan"
  | FVal.num q => str_f q

/-- Model of `Driver::setDVL`: formats `m_sampling_rate` and `m_salinity` into one
`SETDVL` command (`%f` fields) and executes it on the default path. -/
def setDVL (w : World) : Bool × World :=
  let cmd := "SETDVL,SR=" ++ fstr_f w.sampling_rate ++ ",SA=" ++ fstr_f w.salinity
  let a := sendCommand cmd false false w
  if !a.1 then (false, a.2) else (true, a.2)

/-- Model of `Driver::save`: executes `SAVE,ALL`; on failure additionally issues
`GETERROR` whose result is discarded, then reports failure. -/
def save (w : World) : Bool × World :=
  let a := sendCommand "SAVE,ALL" false false w
  if !a.1 then (false, (sendCommand "GETERROR" false false a.2).2)
  else (true, a.2)

/-- Model of `Driver::setup`: the eight-step sequence, aborting on first failure. -/
def setup (w : World) : Bool × World :=
  let a1 := login w
  if !a1.1 then (false, a1.2)
  else
    let a2 := enterCommandMode a1.2
    if !a2.1 then (false, a2.2)
    else
      let a3 := sendCommand "SETDEFAULT,ALL" false false a2.2
      if !a3.1 then (false, a3.2)
      else
        let a4 := sendCommand "SETINST,LED=\"OFF\"" false false a3.2
        if !a4.1 then (false, a4.2)
        else
          let a5 := setTime a4.2
          if !a5.1 then (false, a5.2)
          else
            let a6 := setDVL a5.2
            if !a6.1 then (false, a6.2)
            else
              let a7 := save a6.2
              if !a7.1 then (false, a7.2)
              else start a7.2

/-- Model of `Driver::setSalinity`: the guard is
`value < 0.0 || value > 50.0` with IEEE comparisons, so a numeric value
is rejected (state unchanged) exactly when it lies outside `[0, 50]`,
while NaN passes the guard (both comparisons false) and is stored. -/
def setSalinity (value : FVal) (w : World) : World :=
  if FVal.flt value (FVal.num 0) || FVal.fgt value (FVal.num 50) then w
  else { w with salinity := value }

/-- Model of `Driver::setSamplingRate`: the guard is
`rate < 1.0 || rate > 8.0` with IEEE comparisons, so a numeric value is
rejected (state unchanged) exactly when it lies outside `[1, 8]`, while
NaN passes the guard (both comparisons false) and is stored. -/
def setSamplingRate (rate : FVal) (w : World) : World :=
  if FVal.flt rate (FVal.num 1) || FVal.fgt rate (FVal.num 8) then w
  else { w with sampling_rate := rate }

/-- The pure power-level mapping stated by the specification:
Minimum → -20 dB, Medium → -10 dB, Maximum → 0 dB. -/
def powerLevelToDecibels : PowerLevel → ℚ
  | PowerLevel.PL_MIN => -20
  | PowerLevel.PL_MED => -10
  | PowerLevel.PL_MAX => 0

/-- Model of `Driver::setPowerLevel`: the inline switch selects the decibel value,
`String::str("SETBT,PL=%f", power)` builds the command, the command is
executed on the default path, and `start()` is then invoked
unconditionally with its result discarded; the returned flag is the
configuration command's outcome. -/
def setPowerLevel (level : PowerLevel) (w : World) : Bool × World :=
  let power : ℚ :=
    match level with
    | PowerLevel.PL_MIN => -20
    | PowerLevel.PL_MED => -10
    | PowerLevel.PL_MAX => 0
  let cmd := "SETBT,PL=" ++ str_f power
  let a := sendCommand cmd false false w
  let b := start a.2
  (a.1, b.2)

/-! ### Step decomposition of `setup`

Named intermediate results of the eight setup steps, used to state the
abort law: `stepA k w` is the (result, world) pair of step `k` when the
steps are run in order starting from `w`. -/

/-- Step 1 of `setup`: the login transition. -/
def stepA1 (w : World) : Bool × World := login w

/-- Step 2 of `setup`: the enter-command-mode transition. -/
def stepA2 (w : World) : Bool × World := enterCommandMode (stepA1 w).2

/-- Step 3 of `setup`: reset to factory defaults. -/
def stepA3 (w : World) : Bool × World :=
  sendCommand "SETDEFAULT,ALL" false false (stepA2 w).2

/-- Step 4 of `setup`: disable the onboard indicator. -/
def stepA4 (w : World) : Bool × World :=
  sendCommand "SETINST,LED=\"OFF\"" false false (stepA3 w).2

/-- Step 5 of `setup`: synchronize the device clock. -/
def stepA5 (w : World) : Bool × World := setTime (stepA4 w).2

/-- Step 6 of `setup`: apply sampling rate and salinity. -/
def stepA6 (w : World) : Bool × World := setDVL (stepA5 w).2

/-- Step 7 of `setup`: persist the configuration. -/
def stepA7 (w : World) : Bool × World := save (stepA6 w).2

/-- Step 8 of `setup`: the start transition. -/
def stepA8 (w : World) : Bool × World := start (stepA7 w).2

/-! ### Trace observation predicates -/

/-- Predicate: the event is a mode-entry transition attempt marker. -/
def isME : Event → Bool
  | Event.modeEntryE => true
  | _ => false

/-- Predicate: the event is a write of the break sequence (the 6-byte
literal followed by the CR LF appended by `Driver::write`). -/
def isBreakWrite : Event → Bool
  | Event.writeE c _ => c == "K1W%!Q\r\n"
  | _ => false

/-- Predicate: the event is a write performed while the session was not in
command mode, other than the two mode-switch machinery writes (the break
sequence and the `MC` mode-change command). -/
def measWrite : Event → Bool
  | Event.writeE c m => !m && !(c == "K1W%!Q\r\n") && !(c == "MC\r\n")
  | _ => false

/-- Predicate: the event is an acknowledgment scan whose timeout differs
from 1.0 second. -/
def nonUnitAck : Event → Bool
  | Event.readE _ t _ => decide (t ≠ 1)
  | _ => false

/-! ### Concrete environments for witnesses and counterexamples -/

/-- Environment entry delivering the standard acknowledgment. -/
def okEv : List REvent := [REvent.data ("OK\r\n".toList)]

/-- A freshly constructed driver world: the constructor initialises
`m_salinity = 35.0`, `m_sampling_rate = 5.0`, `m_cmd_mode = false`. -/
def baseW (env : List (List REvent)) : World :=
  { salinity := FVal.num 35, sampling_rate := FVal.num 5, cmd_mode := false,
    clk := ⟨2016, 1, 1, 0, 0, 0⟩, env := env, trace := [] }

/-! ### Basic characterization lemmas -/

/-- Full characterization of `sendCmdRaw` (one bypassed command exchange):
it writes the command plus CR LF, recording the current mode flag, then
scans for `"OK\r\n"` with the fixed 1.0 second timeout against the next
environment entry. -/
theorem sendCmdRaw_eq (c : String) (p : Bool) (w : World) :
    sendCmdRaw c p w =
      ((scanRun "OK\r\n" (w.env.headD [])).1,
       { w with env := w.env.tail,
                trace := w.trace ++
                  [Event.writeE (c ++ "\r\n") w.cmd_mode,
                   Event.readE "OK\r\n" 1 (scanRun "OK\r\n" (w.env.headD [])).1] }) := by
  simp [sendCmdRaw, readUntil, write]

/-- The ghost trace of a bypassed exchange. -/
theorem sendCmdRaw_trace (c : String) (p : Bool) (w : World) :
    (sendCmdRaw c p w).2.trace =
      w.trace ++ [Event.writeE (c ++ "\r\n") w.cmd_mode,
                  Event.readE "OK\r\n" 1 (sendCmdRaw c p w).1] := by
  rw [sendCmdRaw_eq]

/-- A bypassed exchange does not change the mode flag. -/
theorem sendCmdRaw_mode (c : String) (p : Bool) (w : World) :
    (sendCmdRaw c p w).2.cmd_mode = w.cmd_mode := by
  rw [sendCmdRaw_eq]

/-- If `enterCommandMode` reports success, the session is in command
mode. -/
theorem enterCommandMode_mode (w : World)
    (h : (enterCommandMode w).1 = true) :
    (enterCommandMode w).2.cmd_mode = true := by
  by_cases hm : w.cmd_mode
  · simp [enterCommandMode, hm]
  · rcases hb : (sendBreak (markModeEntry w)).1 with _ | _ <;>
      rcases hc : (sendCmdRaw "MC" true (delay 1 (sendBreak (markModeEntry w)).2)).1
        with _ | _ <;>
      simp [enterCommandMode, hm, hb, hc, setCmdMode] at h ⊢

/-- Counting events through one bypassed exchange: only a write of the
given command and a 1.0-second acknowledgment scan are appended. -/
theorem countP_sendCmdRaw (p : Event → Bool) (c : String) (pr : Bool)
    (w : World)
    (hw : ∀ b, p (Event.writeE (c ++ "\r\n") b) = false)
    (hack : ∀ r, p (Event.readE "OK\r\n" 1 r) = false) :
    (sendCmdRaw c pr w).2.trace.countP p = w.trace.countP p := by
  rw [sendCmdRaw_trace]
  simp [List.countP_append, List.countP_cons, hw, hack]

/-- Counting events through `sendBreak`: only break writes and 1.0-second
acknowledgment scans are appended. -/
theorem countP_sendBreak (p : Event → Bool) (w : World)
    (hw : ∀ b, p (Event.writeE (c_cmd_break ++ "\r\n") b) = false)
    (hack : ∀ r, p (Event.readE "OK\r\n" 1 r) = false) :
    (sendBreak w).2.trace.countP p = w.trace.countP p := by
  rcases h1 : (sendCmdRaw c_cmd_break true w).1 with _ | _ <;>
    rcases h2 : (sendCmdRaw c_cmd_break true (sendCmdRaw c_cmd_break true w).2).1
      with _ | _ <;>
    simp [sendBreak, h1, h2, countP_sendCmdRaw p c_cmd_break true _ hw hack]

/-- Counting events through `markModeEntry`. -/
theorem countP_markModeEntry (p : Event → Bool) (w : World) :
    (markModeEntry w).trace.countP p =
      w.trace.countP p + (if p Event.modeEntryE then 1 else 0) := by
  simp [markModeEntry, List.countP_append, List.countP_cons]

/-- Counting events through `delay`. -/
theorem countP_delay (p : Event → Bool) (t : ℚ) (w : World)
    (hd : p (Event.delayE t) = false) :
    (delay t w).trace.countP p = w.trace.countP p := by
  simp [delay, List.countP_append, List.countP_cons, hd]

/-- Counting events through `enterCommandMode` for predicates that ignore
the mode-switch machinery (break writes, `MC` write, 1.0-second
acknowledgment scans, the settling delay and the attempt marker). -/
theorem countP_enterCommandMode (p : Event → Bool) (w : World)
    (hbrk : ∀ b, p (Event.writeE (c_cmd_break ++ "\r\n") b) = false)
    (hmc : ∀ b, p (Event.writeE ("MC" ++ "\r\n") b) = false)
    (hack : ∀ r, p (Event.readE "OK\r\n" 1 r) = false)
    (hdel : p (Event.delayE 1) = false)
    (hme : p Event.modeEntryE = false) :
    (enterCommandMode w).2.trace.countP p = w.trace.countP p := by
  by_cases hm : w.cmd_mode
  · simp [enterCommandMode, hm]
  · have hmark : (markModeEntry w).trace.countP p = w.trace.countP p := by
      rw [countP_markModeEntry]; simp [hme]
    rcases hb : (sendBreak (markModeEntry w)).1 with _ | _ <;>
      rcases hc : (sendCmdRaw "MC" true (delay 1 (sendBreak (markModeEntry w)).2)).1
        with _ | _ <;>
      simp [enterCommandMode, hm, hb, hc, setCmdMode,
        countP_sendCmdRaw p "MC" true _ hmc hack,
        countP_delay p 1 _ hdel,
        countP_sendBreak p _ hbrk hack, hmark]

/-- Counting events through a default-path `sendCommand` for predicates
that ignore the mode-switch machinery and the final exchange.  The final
command write is performed in command mode, so `hcmd` only needs to cover
mode flag `true`. -/
theorem countP_sendCommand_default (p : Event → Bool) (cmd : String)
    (pr : Bool) (w : World)
    (hbrk : ∀ b, p (Event.writeE (c_cmd_break ++ "\r\n") b) = false)
    (hmc : ∀ b, p (Event.writeE ("MC" ++ "\r\n") b) = false)
    (hack : ∀ r, p (Event.readE "OK\r\n" 1 r) = false)
    (hdel : p (Event.delayE 1) = false)
    (hme : p Event.modeEntryE = false)
    (hcmd : p (Event.writeE (cmd ++ "\r\n") true) = false) :
    (sendCommand cmd false pr w).2.trace.countP p = w.trace.countP p := by
  have hpre := countP_enterCommandMode p w hbrk hmc hack hdel hme
  rcases he : (enterCommandMode w).1 with _ | _
  · simp [sendCommand, he, hpre]
  · have hmode := enterCommandMode_mode w he
    have hfin : (sendCmdRaw cmd pr (enterCommandMode w).2).2.trace.countP p =
        (enterCommandMode w).2.trace.countP p := by
      rw [sendCmdRaw_trace]
      simp [List.countP_append, List.countP_cons, hmode, hcmd, hack]
    simp [sendCommand, he, hfin, hpre]

/-- Counting events through `sendCommand` with arbitrary flags, for
predicates that ignore every write and every 1.0-second acknowledgment
scan, the settling delay and the attempt marker. -/
theorem countP_sendCommand_any (p : Event → Bool) (cmd : String)
    (ig pr : Bool) (w : World)
    (hw : ∀ c b, p (Event.writeE c b) = false)
    (hack : ∀ r, p (Event.readE "OK\r\n" 1 r) = false)
    (hdel : p (Event.delayE 1) = false)
    (hme : p Event.modeEntryE = false) :
    (sendCommand cmd ig pr w).2.trace.countP p = w.trace.countP p := by
  have hpre := countP_enterCommandMode p w (fun b => hw _ b) (fun b => hw _ b)
    hack hdel hme
  have hraw : ∀ v : World, (sendCmdRaw cmd pr v).2.trace.countP p =
      v.trace.countP p :=
    fun v => countP_sendCmdRaw p cmd pr v (fun b => hw _ b) hack
  rcases ig with _ | _
  · rcases he : (enterCommandMode w).1 with _ | _ <;>
      simp [sendCommand, he, hpre, hraw]
  · simp [sendCommand, hraw]

/-- Exact count of mode-entry attempt markers added by `enterCommandMode`:
one if a transition attempt is made, zero if already in command mode. -/
theorem countME_enterCommandMode (w : World) :
    (enterCommandMode w).2.trace.countP isME =
      w.trace.countP isME + (if w.cmd_mode then 0 else 1) := by
  have hbrk : ∀ b, isME (Event.writeE (c_cmd_break ++ "\r\n") b) = false :=
    fun _ => rfl
  have hack : ∀ r, isME (Event.readE "OK\r\n" 1 r) = false := fun _ => rfl
  have hmc : ∀ b, isME (Event.writeE ("MC" ++ "\r\n") b) = false :=
    fun _ => rfl
  by_cases hm : w.cmd_mode
  · simp [enterCommandMode, hm]
  · have hmark : (markModeEntry w).trace.countP isME =
        w.trace.countP isME + 1 := by
      rw [countP_markModeEntry]; simp [isME]
    rcases hb : (sendBreak (markModeEntry w)).1 with _ | _ <;>
      rcases hc : (sendCmdRaw "MC" true (delay 1 (sendBreak (markModeEntry w)).2)).1
        with _ | _ <;>
      simp [enterCommandMode, hm, hb, hc, setCmdMode,
        countP_sendCmdRaw isME "MC" true _ hmc hack,
        countP_delay isME 1 _ (by rfl),
        countP_sendBreak isME _ hbrk hack, hmark]

/-! ### Claim theorems -/

/-- C9.  Read-buffer capacity safety: within one `readUntil` scan (the
loop `readLoop`, entered by `readUntil` on a fresh empty buffer), the
accumulated buffer never exceeds the 256-byte capacity — each socket read
is bounded by `sizeof(bfr) - offset`, so no byte is ever written past the
end of the buffer and the buffer only grows by in-bounds appends at the
cursor — a successful scan ends with the terminal sequence, and when the
buffer has reached capacity without the terminal sequence matching the
scan returns failure rather than writing out of bounds. -/
theorem read_buffer_safe (seq : List Char) (events : List REvent)
    (bfr : List Char) (h : bfr.length ≤ 256) :
    (readLoop seq events bfr).2.length ≤ 256 ∧
    ((readLoop seq events bfr).1 = true →
      seq.isSuffixOf (readLoop seq events bfr).2 = true) ∧
    (∃ t, (readLoop seq events bfr).2 = bfr ++ t) ∧
    ((readLoop seq events bfr).2.length = 256 ∧
      seq.isSuffixOf (readLoop seq events bfr).2 = false →
      (readLoop seq events bfr).1 = false) := by
  have main : ∀ (evs : List REvent) (b : List Char), b.length ≤ 256 →
      (readLoop seq evs b).2.length ≤ 256 ∧
      ((readLoop seq evs b).1 = true →
        seq.isSuffixOf (readLoop seq evs b).2 = true) ∧
      (∃ t, (readLoop seq evs b).2 = b ++ t) := by
    intro evs
    induction evs with
    | nil =>
      intro b hb
      exact ⟨hb, by simp [readLoop], ⟨[], by simp [readLoop]⟩⟩
    | cons e rest ih =>
      intro b hb
      cases e with
      | timeout =>
        exact ⟨hb, by simp [readLoop], ⟨[], by simp [readLoop]⟩⟩
      | data chunk =>
        have hlen : (b ++ chunk.take (256 - b.length)).length ≤ 256 := by
          simp only [List.length_append, List.length_take]
          omega
        have hov : ¬ 256 < (b ++ chunk.take (256 - b.length)).length :=
          not_lt.mpr hlen
        have hstep : readLoop seq (REvent.data chunk :: rest) b =
            if seq.isSuffixOf (b ++ chunk.take (256 - b.length)) then
              (true, b ++ chunk.take (256 - b.length))
            else readLoop seq rest (b ++ chunk.take (256 - b.length)) := by
          simp only [readLoop]
          rw [if_neg hov]
        by_cases hsuf : seq.isSuffixOf (b ++ chunk.take (256 - b.length)) = true
        · rw [hstep, if_pos hsuf]
          exact ⟨hlen, fun _ => hsuf, ⟨chunk.take (256 - b.length), rfl⟩⟩
        · rw [hstep, if_neg hsuf]
          obtain ⟨h1, h2, t, h3⟩ := ih (b ++ chunk.take (256 - b.length)) hlen
          exact ⟨h1, h2,
            ⟨chunk.take (256 - b.length) ++ t, by rw [h3, List.append_assoc]⟩⟩
  obtain ⟨h1, h2, h3⟩ := main events bfr h
  refine ⟨h1, h2, h3, ?_⟩
  rintro ⟨-, hs⟩
  rcases hr : (readLoop seq events bfr).1 with _ | _
  · rfl
  · rw [h2 hr] at hs
    cases hs

/-- C9 witness: a 300-byte burst is truncated at the 256-byte capacity and
the scan fails; a burst ending in the terminal sequence succeeds and the
final buffer indeed ends with it. -/
theorem read_buffer_safe_witness :
    (readLoop ("OK\r\n".toList) [REvent.data (List.replicate 300 'a')]
      []).2.length ≤ 256 ∧
    ("OK\r\n".toList).isSuffixOf
      (readLoop ("OK\r\n".toList) [REvent.data ("abcOK\r\n".toList)] []).2 =
      true :=
  ⟨(read_buffer_safe ("OK\r\n".toList) [REvent.data (List.replicate 300 'a')]
      [] (by decide)).1,
   (read_buffer_safe ("OK\r\n".toList) [REvent.data ("abcOK\r\n".toList)]
      [] (by decide)).2.1 (by decide)⟩

/-- C6 counterexample: at `v = NaN` both IEEE comparisons of each guard
(`v < lo`, `v > hi`) are false, so `setSalinity NaN` and
`setSamplingRate NaN` overwrite the stored values with NaN even though
`0 ≤ NaN ≤ 50` (respectively `1 ≤ NaN ≤ 8`) does not hold — refuting the
claim that the state is left unchanged for every input outside the
validated range. -/
theorem validator_nan_overwrite :
    (setSalinity FVal.nan (baseW [])).salinity = FVal.nan ∧
    setSalinity FVal.nan (baseW []) ≠ baseW [] ∧
    (setSamplingRate FVal.nan (baseW [])).sampling_rate = FVal.nan ∧
    setSamplingRate FVal.nan (baseW []) ≠ baseW [] ∧
    (FVal.fle (FVal.num 0) FVal.nan = false ∧
      FVal.fle FVal.nan (FVal.num 50) = false) ∧
    (FVal.fle (FVal.num 1) FVal.nan = false ∧
      FVal.fle FVal.nan (FVal.num 8) = false) := by
  decide

/-- C6 amended.  Validator no-op law for numeric inputs: for every
representable number `q`, `setSalinity q` stores `q` exactly when
`0 ≤ q ≤ 50` and otherwise leaves the whole state unchanged, and
`setSamplingRate q` stores `q` exactly when `1 ≤ q ≤ 8` and otherwise
leaves the whole state unchanged; the sole exception is NaN, which
passes both guards (every IEEE comparison with NaN is false) and is
stored. -/
theorem validator_noop_numeric (v : FVal) (w : World) :
    (∀ q : ℚ, v = FVal.num q →
      setSalinity v w =
        (if 0 ≤ q ∧ q ≤ 50 then { w with salinity := v } else w)) ∧
    (∀ q : ℚ, v = FVal.num q →
      setSamplingRate v w =
        (if 1 ≤ q ∧ q ≤ 8 then { w with sampling_rate := v } else w)) ∧
    setSalinity FVal.nan w = { w with salinity := FVal.nan } ∧
    setSamplingRate FVal.nan w = { w with sampling_rate := FVal.nan } := by
  refine ⟨?_, ?_, ?_, ?_⟩
  · rintro q rfl
    have hiff : (q < 0 ∨ 50 < q) ↔ ¬(0 ≤ q ∧ q ≤ 50) := by
      constructor
      · rintro (hc | hc) hh
        · exact absurd hh.1 (not_le.mpr hc)
        · exact absurd hh.2 (not_le.mpr hc)
      · intro hh
        rcases not_and_or.mp hh with hc | hc
        · exact Or.inl (not_le.mp hc)
        · exact Or.inr (not_le.mp hc)
    simp only [setSalinity, FVal.flt, FVal.fgt, Bool.or_eq_true,
      decide_eq_true_eq]
    rw [if_congr hiff rfl rfl, ite_not]
  · rintro q rfl
    have hiff : (q < 1 ∨ 8 < q) ↔ ¬(1 ≤ q ∧ q ≤ 8) := by
      constructor
      · rintro (hc | hc) hh
        · exact absurd hh.1 (not_le.mpr hc)
        · exact absurd hh.2 (not_le.mpr hc)
      · intro hh
        rcases not_and_or.mp hh with hc | hc
        · exact Or.inl (not_le.mp hc)
        · exact Or.inr (not_le.mp hc)
    simp only [setSamplingRate, FVal.flt, FVal.fgt, Bool.or_eq_true,
      decide_eq_true_eq]
    rw [if_congr hiff rfl rfl, ite_not]
  · simp [setSalinity, FVal.flt, FVal.fgt]
  · simp [setSamplingRate, FVal.flt, FVal.fgt]

/-- C6 witness: an out-of-range numeric salinity is a no-op and an
in-range numeric sampling rate is stored. -/
theorem validator_noop_numeric_witness :
    setSalinity (FVal.num 60) (baseW []) = baseW [] ∧
    setSamplingRate (FVal.num 4) (baseW []) =
      { baseW [] with sampling_rate := FVal.num 4 } := by
  constructor
  · have h := (validator_noop_numeric (FVal.num 60) (baseW [])).1 60 rfl
    rw [h]
    decide
  · have h := (validator_noop_numeric (FVal.num 4) (baseW [])).2.1 4 rfl
    rw [h]
    decide

/-- C7.  `setPowerLevel` behaviour: the configuration command it executes
is `SETBT,PL=` followed by the `%f` rendering of the decibel value given
by the pure mapping `powerLevelToDecibels` (Minimum → -20.0, Medium →
-10.0, Maximum → 0.0, so Medium sends a command containing `-10.000000`);
the start transition is attempted unconditionally on the world left by the
configuration command — whether it succeeds or fails — and the returned
flag is exactly the configuration command's outcome. -/
theorem setPowerLevel_spec (level : PowerLevel) (w : World) :
    setPowerLevel level w =
      ((sendCommand ("SETBT,PL=" ++ str_f (powerLevelToDecibels level))
          false false w).1,
       (start (sendCommand ("SETBT,PL=" ++ str_f (powerLevelToDecibels level))
          false false w).2).2) ∧
    str_f (powerLevelToDecibels PowerLevel.PL_MIN) = "-20.000000" ∧
    str_f (powerLevelToDecibels PowerLevel.PL_MED) = "-10.000000" ∧
    str_f (powerLevelToDecibels PowerLevel.PL_MAX) = "0.000000" ∧
    "SETBT,PL=" ++ str_f (powerLevelToDecibels PowerLevel.PL_MED) =
      "SETBT,PL=-10.000000" := by
  refine ⟨?_, by decide, by decide, by decide, by decide⟩
  cases level <;> simp [setPowerLevel, powerLevelToDecibels]

/-- Login counterexample environment: both prompt waits time out, then the
confirmation banner arrives. -/
def loginCexW : World :=
  baseW [[REvent.timeout], [REvent.timeout],
         [REvent.data ("Command Interface\r\r\n".toList)]]

/-- C3 counterexample: on `loginCexW` the wait for the username-style
prompt fails (so the first of the three wait steps fails), yet `login`
returns success, because the source discards the results of both
`replyLogin` calls — refuting the claim that failure of any of the three
wait steps fails the login transition. -/
theorem login_prompt_failure_ignored :
    (readUntil "Username: " 1 true loginCexW).1 = false ∧
    (replyLogin "Username: " loginCexW).1 = false ∧
    (login loginCexW).1 = true := by
  decide

/-- C3 amended: the login transition's result is exactly the result of the
third wait (the confirmation banner); the two prompt waits cannot fail it
because their results are discarded. -/
theorem login_result_is_banner_wait (w : World) :
    (login w).1 =
      (readUntil "Command Interface\r\r\n" 2 true
        (replyLogin "Password: " (replyLogin "Username: " w).2).2).1 := by
  rcases h : (readUntil "Command Interface\r\r\n" 2 true
      (replyLogin "Password: " (replyLogin "Username: " w).2).2).1 with _ | _ <;>
    simp [login, h]

/-- Break counterexample environment: the device never replies. -/
def breakCexW : World := baseW [[REvent.timeout], [REvent.timeout]]

/-- C4 counterexample: when no `OK` reply ever arrives, the break sender
fails — refuting that the absence of an acknowledgment is treated as the
expected outcome — and its trace shows that each attempt wrote the 6-byte
literal followed by CR LF (8 bytes, not exactly the 6-byte literal) and
then awaited the standard `OK\r\n` acknowledgment. -/
theorem break_fails_without_ok :
    (sendBreak breakCexW).1 = false ∧
    (sendBreak breakCexW).2.trace =
      [Event.writeE "K1W%!Q\r\n" false, Event.readE "OK\r\n" 1 false,
       Event.writeE "K1W%!Q\r\n" false, Event.readE "OK\r\n" 1 false] ∧
    "K1W%!Q\r\n".length = 8 ∧ c_cmd_break.length = 6 := by
  decide

/-- C4 amended: each break attempt writes the 6-byte break literal
followed by CR LF (8 bytes on the wire) and then awaits the standard
`OK\r\n` acknowledgment with the normal 1.0-second timeout; the attempt
succeeds exactly when that acknowledgment scan succeeds, so an attempt
does fail when no `OK` reply arrives. -/
theorem break_attempt_wire (w : World) :
    (sendCmdRaw c_cmd_break true w).2.trace =
      w.trace ++ [Event.writeE (c_cmd_break ++ "\r\n") w.cmd_mode,
                  Event.readE "OK\r\n" 1 (sendCmdRaw c_cmd_break true w).1] ∧
    (sendCmdRaw c_cmd_break true w).1 =
      (scanRun "OK\r\n" (w.env.headD [])).1 ∧
    (c_cmd_break ++ "\r\n").length = 8 := by
  refine ⟨sendCmdRaw_trace _ _ _, ?_, by decide⟩
  rw [sendCmdRaw_eq]

/-- C5.  Break retry-of-one: if the first break attempt succeeds,
`sendBreak` stops there with success; if and only if the first attempt
fails, exactly one further attempt is made and its outcome decides the
result; the overall result is the disjunction of the at-most-two
attempts, and the number of break writes on the wire is one when the
first attempt succeeds and two otherwise — never more. -/
theorem break_retry_of_one (w : World) :
    ((sendCmdRaw c_cmd_break true w).1 = true →
      sendBreak w = (true, (sendCmdRaw c_cmd_break true w).2)) ∧
    ((sendCmdRaw c_cmd_break true w).1 = false →
      sendBreak w =
        ((sendCmdRaw c_cmd_break true (sendCmdRaw c_cmd_break true w).2).1,
         (sendCmdRaw c_cmd_break true (sendCmdRaw c_cmd_break true w).2).2)) ∧
    ((sendBreak w).1 =
      ((sendCmdRaw c_cmd_break true w).1 ||
        (sendCmdRaw c_cmd_break true (sendCmdRaw c_cmd_break true w).2).1)) ∧
    ((sendBreak w).2.trace.countP isBreakWrite =
      w.trace.countP isBreakWrite +
        (if (sendCmdRaw c_cmd_break true w).1 then 1 else 2)) := by
  have hbwTrue : ∀ b : Bool,
      isBreakWrite (Event.writeE (c_cmd_break ++ "\r\n") b) = true := by
    intro b; cases b <;> decide
  have hbwRead : ∀ r : Bool, isBreakWrite (Event.readE "OK\r\n" 1 r) = false :=
    fun _ => rfl
  have hbw : ∀ v : World,
      (sendCmdRaw c_cmd_break true v).2.trace.countP isBreakWrite =
        v.trace.countP isBreakWrite + 1 := by
    intro v
    rw [sendCmdRaw_trace]
    simp [List.countP_append, List.countP_cons, hbwTrue, hbwRead]
  rcases h1 : (sendCmdRaw c_cmd_break true w).1 with _ | _ <;>
    rcases h2 : (sendCmdRaw c_cmd_break true (sendCmdRaw c_cmd_break true w).2).1
      with _ | _ <;>
    refine ⟨?_, ?_, ?_, ?_⟩ <;>
    simp [sendBreak, h1, h2, hbw]

/-- C5 witness: with a first attempt that gets no reply and a second that
is acknowledged, the break sender succeeds via its single retry. -/
theorem break_retry_of_one_witness :
    (sendBreak (baseW [[REvent.timeout], okEv])).1 = true := by
  have h := (break_retry_of_one (baseW [[REvent.timeout], okEv])).2.1
    (by decide)
  rw [h]
  decide

/-- C1.  Mode invariant: a configuration command executed on the default
path (`ignore = false`) leaves the session in command mode whenever it
returns success; a successful start transition leaves the session in
measurement mode (`m_cmd_mode = false`); and the default path never
writes anything while the session is out of command mode except the two
mode-switch machinery writes (the break sequence and the `MC` mode-change
command) — so the configuration command itself is never written while in
measurement mode. -/
theorem mode_invariant (cmd : String) (pr : Bool) (w : World) :
    ((sendCommand cmd false pr w).1 = true →
      (sendCommand cmd false pr w).2.cmd_mode = true) ∧
    ((start w).1 = true → (start w).2.cmd_mode = false) ∧
    ((sendCommand cmd false pr w).2.trace.countP measWrite =
      w.trace.countP measWrite) := by
  have hbrk : ∀ b, measWrite (Event.writeE (c_cmd_break ++ "\r\n") b) = false := by
    intro b; cases b <;> decide
  have hmc : ∀ b, measWrite (Event.writeE ("MC" ++ "\r\n") b) = false := by
    intro b; cases b <;> decide
  have hack : ∀ r, measWrite (Event.readE "OK\r\n" 1 r) = false := fun _ => rfl
  have hcmd : measWrite (Event.writeE (cmd ++ "\r\n") true) = false := by
    simp [measWrite]
  refine ⟨?_, ?_, ?_⟩
  · intro h
    rcases he : (enterCommandMode w).1 with _ | _
    · simp [sendCommand, he] at h
    · have hm := enterCommandMode_mode w he
      simp [sendCommand, he, sendCmdRaw_mode, hm]
  · intro h
    rcases hs : (sendCommand "START" false false w).1 with _ | _ <;>
      simp [start, hs, setCmdMode] at h ⊢
  · exact countP_sendCommand_default measWrite cmd pr w hbrk hmc hack rfl rfl hcmd

/-- C1 witness: a successful default-path configuration command from
measurement mode ends in command mode; a successful start from command
mode ends in measurement mode. -/
theorem mode_invariant_witness :
    (sendCommand "SETDEFAULT,ALL" false false
      (baseW [okEv, okEv, okEv])).2.cmd_mode = true ∧
    (start { baseW [okEv] with cmd_mode := true }).2.cmd_mode = false :=
  ⟨(mode_invariant "SETDEFAULT,ALL" false (baseW [okEv, okEv, okEv])).1
      (by decide),
   (mode_invariant "SETDEFAULT,ALL" false
      { baseW [okEv] with cmd_mode := true }).2.1 (by decide)⟩

/-- Enter-command-mode counterexample environment: break and `MC` both
acknowledged from measurement mode. -/
def mcCexW : World := baseW [okEv, okEv]

/-- Configuration-command counterexample environment: already in command
mode, one acknowledged exchange. -/
def cfgCexW : World := { baseW [okEv] with cmd_mode := true }

/-- C8 counterexample: the acknowledgment wait for the `MC` mode-change
command uses the same 1.0-second timeout as the acknowledgment wait of a
configuration-step command (both recorded as `readE "OK\r\n" 1`), so the
`MC` timeout is neither distinct from nor strictly shorter than the
configuration-command timeout (the literal `2.0` at the call site is
converted to the boolean bypass flag, not used as a timeout). -/
theorem mc_timeout_not_shorter :
    (enterCommandMode mcCexW).2.trace =
      [Event.modeEntryE,
       Event.writeE "K1W%!Q\r\n" false, Event.readE "OK\r\n" 1 true,
       Event.delayE 1,
       Event.writeE "MC\r\n" false, Event.readE "OK\r\n" 1 true] ∧
    (sendCommand "SETDEFAULT,ALL" false false cfgCexW).2.trace =
      [Event.writeE "SETDEFAULT,ALL\r\n" true,
       Event.readE "OK\r\n" 1 true] ∧
    ¬ ((1 : ℚ) < 1) := by
  refine ⟨by decide, by decide, by decide⟩

/-- C8 amended: every acknowledgment scan performed by the mode-entry
transition (including the one for `MC`) and by any `sendCommand`
execution uses the same fixed 1.0-second timeout — no scan with a timeout
other than 1.0 second is ever recorded by either. -/
theorem ack_timeout_uniform (cmd : String) (ig pr : Bool) (w : World) :
    (enterCommandMode w).2.trace.countP nonUnitAck =
      w.trace.countP nonUnitAck ∧
    (sendCommand cmd ig pr w).2.trace.countP nonUnitAck =
      w.trace.countP nonUnitAck := by
  have hw : ∀ (c : String) (b : Bool),
      nonUnitAck (Event.writeE c b) = false := fun _ _ => rfl
  have hack : ∀ r, nonUnitAck (Event.readE "OK\r\n" 1 r) = false := by
    intro r; simp [nonUnitAck]
  exact ⟨countP_enterCommandMode nonUnitAck w (fun b => hw _ b)
      (fun b => hw _ b) hack rfl rfl,
    countP_sendCommand_any nonUnitAck cmd ig pr w hw hack rfl rfl⟩

/-- C10.  Bounded mode-entry recursion: any `sendCommand` call triggers at
most one mode-entry transition attempt; `enterCommandMode` performs
exactly one attempt when the session is out of command mode and none
otherwise; the break sender performs no mode-entry attempt at all (its
sends bypass the mode switch); and a `sendCommand` with the bypass flag
set is exactly the raw write-and-acknowledge exchange, so the mutual
recursion between `sendCommand` and `enterCommandMode` is cut off after
one level and terminates — as witnessed by these total definitions. -/
theorem bounded_mode_entry (cmd : String) (ig pr : Bool) (w : World) :
    (sendCommand cmd ig pr w).2.trace.countP isME ≤
      w.trace.countP isME + 1 ∧
    (enterCommandMode w).2.trace.countP isME =
      w.trace.countP isME + (if w.cmd_mode then 0 else 1) ∧
    (sendBreak w).2.trace.countP isME = w.trace.countP isME ∧
    sendCommand cmd true pr w = sendCmdRaw cmd pr w := by
  have hbrk : ∀ b, isME (Event.writeE (c_cmd_break ++ "\r\n") b) = false :=
    fun _ => rfl
  have hack : ∀ r, isME (Event.readE "OK\r\n" 1 r) = false := fun _ => rfl
  have hcmd : ∀ (c : String) (b : Bool),
      isME (Event.writeE c b) = false := fun _ _ => rfl
  have hraw : ∀ (c : String) (p : Bool) (v : World),
      (sendCmdRaw c p v).2.trace.countP isME = v.trace.countP isME :=
    fun c p v => countP_sendCmdRaw isME c p v (fun b => hcmd _ b) hack
  refine ⟨?_, countME_enterCommandMode w,
    countP_sendBreak isME w hbrk hack, rfl⟩
  rcases ig with _ | _
  · rcases he : (enterCommandMode w).1 with _ | _ <;>
      simp [sendCommand, he, hraw, countME_enterCommandMode w] <;>
      split_ifs <;> omega
  · simp [sendCommand, hraw]

/-- C2.  Setup sequencer abort law: `setup` runs login, enter-command-mode,
reset-to-defaults, disable-indicator, set-clock, set-DVL-parameters,
persist, start strictly in that order; if step `k` fails, `setup` returns
failure with the world exactly as step `k` left it — so steps `k+1..8`
are never attempted — and step 8's outcome is `setup`'s outcome when all
previous steps succeed.  The single exception is internal to step 7: when
the `SAVE,ALL` exchange fails, step 7 additionally issues one `GETERROR`
diagnostic command whose result is not checked before reporting
failure. -/
theorem setup_abort_law (w : World) :
    ((stepA1 w).1 = false → setup w = (false, (stepA1 w).2)) ∧
    ((stepA1 w).1 = true → (stepA2 w).1 = false →
      setup w = (false, (stepA2 w).2)) ∧
    ((stepA1 w).1 = true → (stepA2 w).1 = true → (stepA3 w).1 = false →
      setup w = (false, (stepA3 w).2)) ∧
    ((stepA1 w).1 = true → (stepA2 w).1 = true → (stepA3 w).1 = true →
      (stepA4 w).1 = false → setup w = (false, (stepA4 w).2)) ∧
    ((stepA1 w).1 = true → (stepA2 w).1 = true → (stepA3 w).1 = true →
      (stepA4 w).1 = true → (stepA5 w).1 = false →
      setup w = (false, (stepA5 w).2)) ∧
    ((stepA1 w).1 = true → (stepA2 w).1 = true → (stepA3 w).1 = true →
      (stepA4 w).1 = true → (stepA5 w).1 = true → (stepA6 w).1 = false →
      setup w = (false, (stepA6 w).2)) ∧
    ((stepA1 w).1 = true → (stepA2 w).1 = true → (stepA3 w).1 = true →
      (stepA4 w).1 = true → (stepA5 w).1 = true → (stepA6 w).1 = true →
      (stepA7 w).1 = false → setup w = (false, (stepA7 w).2)) ∧
    ((stepA1 w).1 = true → (stepA2 w).1 = true → (stepA3 w).1 = true →
      (stepA4 w).1 = true → (stepA5 w).1 = true → (stepA6 w).1 = true →
      (stepA7 w).1 = true → setup w = stepA8 w) ∧
    ((stepA1 w).1 = true → (stepA2 w).1 = true → (stepA3 w).1 = true →
      (stepA4 w).1 = true → (stepA5 w).1 = true → (stepA6 w).1 = true →
      (sendCommand "SAVE,ALL" false false (stepA6 w).2).1 = false →
      (stepA7 w).1 = false ∧
      (stepA7 w).2 =
        (sendCommand "GETERROR" false false
          (sendCommand "SAVE,ALL" false false (stepA6 w).2).2).2) := by
  refine ⟨?_, ?_, ?_, ?_, ?_, ?_, ?_, ?_, ?_⟩
  · intro h1
    simp only [stepA1] at h1 ⊢
    simp [setup, h1]
  · intro h1 h2
    simp only [stepA1, stepA2] at h1 h2 ⊢
    simp [setup, h1, h2]
  · intro h1 h2 h3
    simp only [stepA1, stepA2, stepA3] at h1 h2 h3 ⊢
    simp [setup, h1, h2, h3]
  · intro h1 h2 h3 h4
    simp only [stepA1, stepA2, stepA3, stepA4] at h1 h2 h3 h4 ⊢
    simp [setup, h1, h2, h3, h4]
  · intro h1 h2 h3 h4 h5
    simp only [stepA1, stepA2, stepA3, stepA4, stepA5] at h1 h2 h3 h4 h5 ⊢
    simp [setup, h1, h2, h3, h4, h5]
  · intro h1 h2 h3 h4 h5 h6
    simp only [stepA1, stepA2, stepA3, stepA4, stepA5, stepA6]
      at h1 h2 h3 h4 h5 h6 ⊢
    simp [setup, h1, h2, h3, h4, h5, h6]
  · intro h1 h2 h3 h4 h5 h6 h7
    simp only [stepA1, stepA2, stepA3, stepA4, stepA5, stepA6, stepA7]
      at h1 h2 h3 h4 h5 h6 h7 ⊢
    simp [setup, h1, h2, h3, h4, h5, h6, h7]
  · intro h1 h2 h3 h4 h5 h6 h7
    simp only [stepA1, stepA2, stepA3, stepA4, stepA5, stepA6, stepA7,
      stepA8] at h1 h2 h3 h4 h5 h6 h7 ⊢
    simp [setup, h1, h2, h3, h4, h5, h6, h7]
  · intro h1 h2 h3 h4 h5 h6 hsv
    simp only [stepA1, stepA2, stepA3, stepA4, stepA5, stepA6, stepA7]
      at h1 h2 h3 h4 h5 h6 hsv ⊢
    simp [save, hsv]

/-- Environment on which the first setup step (login) fails. -/
def setupCexW : World :=
  baseW [[REvent.timeout], [REvent.timeout], [REvent.timeout]]

/-- Environment on which steps 1..6 succeed, the `SAVE,ALL` exchange of
step 7 gets no acknowledgment, and the diagnostic `GETERROR` is
acknowledged. -/
def setupSaveFailW : World :=
  baseW [[REvent.data ("Username: ".toList)],
         [REvent.data ("Password: ".toList)],
         [REvent.data ("Command Interface\r\r\n".toList)],
         okEv, okEv, okEv, okEv, okEv, okEv,
         [REvent.timeout], okEv]

/-- C2 witness: when login fails, `setup` stops right there with failure;
and when steps 1..6 succeed but `SAVE,ALL` is not acknowledged, step 7
reports failure after the extra `GETERROR` exchange. -/
theorem setup_abort_law_witness :
    setup setupCexW = (false, (stepA1 setupCexW).2) ∧
    (stepA7 setupSaveFailW).1 = false :=
  ⟨(setup_abort_law setupCexW).1 (by decide),
   ((setup_abort_law setupSaveFailW).2.2.2.2.2.2.2.2 (by decide) (by decide)
      (by decide) (by decide) (by decide) (by decide) (by decide)).1⟩

end NortekDVL
